import Mathlib

/-!
# Verification of the grid daemon's versioned schema store

Shallow embedding of `src/daemon/src/database/helpers/grid_schemas.rs`,
`src/daemon/src/database/helpers/schemas.rs` and the fetch handler of
`src/daemon/src/rest_api/routes/schemas.rs`.

A Postgres table is modelled as a `List` of row structures, in row order.
A diesel `update ... filter ... set` statement is a `List.map` that rewrites
the rows matched by the filter; `insert_into ... values(&[..])` appends the
given rows; `filter ... load` is `List.filter`; `.first` takes the head of
the result set or fails with diesel's `NotFound` error.  The functions in
the source return `QueryResult<...>`; aside from connection-level faults
(modelled separately for the fault-injection analysis) every statement in
these helpers succeeds, whatever number of rows it matched, because the
source discards the affected-row count with `.map(|_| ())`.
-/

set_option autoImplicit false

namespace Grid

/-- Modelled from the spec: the reserved open sentinel (`OPEN_SENTINEL`).
The constant `MAX_BLOCK_NUM` lives in the daemon's `database/helpers`
module, which is not under `src/`; the spec describes it as "a reserved
sentinel value meaning still open", and the daemon uses `i64::MAX`. -/
def MAX_BLOCK_NUM : Int := 9223372036854775807

/-- A row of the `grid_schema` table.  The `models.rs` file declaring
`GridSchema`/`NewGridSchema` is not under `src/`; the columns are the ones
the code under `src/` reads and writes: `name`, `end_block_num`,
`start_block_num` (helpers) and `name`, `description`, `owner`
(`GridSchemaSlice::from_schema` in the REST routes).  `NewGridSchema`
carries the same columns (minus the auto-generated row id, which no code
under `src/` reads), so one structure serves for both. -/
structure GridSchema where
  name : String
  description : String
  owner : String
  start_block_num : Int
  end_block_num : Int
  deriving DecidableEq, Repr

/-- A row of the `grid_property_definition` table.  As with `GridSchema`,
the model declaration is not under `src/`; the columns used by the code
under `src/` are `name`, `schema_name`, `start_block_num`,
`end_block_num`, plus payload columns opaque to the helpers, folded here
into `data_type`. -/
structure GridPropertyDefinition where
  name : String
  schema_name : String
  data_type : String
  start_block_num : Int
  end_block_num : Int
  deriving DecidableEq, Repr

/-- The two tables the embedded helpers touch. -/
structure DbState where
  grid_schema : List GridSchema
  grid_property_definition : List GridPropertyDefinition
  deriving DecidableEq, Repr

/-- `update_grid_schema_end_block_num` (grid_schemas.rs, lines 55-69):
`update(grid_schema::table).filter(name.eq(name).and(end_block_num.eq(MAX_BLOCK_NUM))).set(end_block_num.eq(current_block_num))`.
Every row whose `name` matches and whose `end_block_num` is the open
sentinel gets `end_block_num := current_block_num`; the statement succeeds
regardless of how many rows matched (`.execute(conn).map(|_| ())`). -/
def update_grid_schema_end_block_num (tbl : List GridSchema) (name : String)
    (current_block_num : Int) : List GridSchema :=
  tbl.map (fun r =>
    if r.name = name ∧ r.end_block_num = MAX_BLOCK_NUM then
      { r with end_block_num := current_block_num }
    else r)

/-- `update_definition_end_block_num` (grid_schemas.rs, lines 71-85): the
filter matches on `name` and the open sentinel only — it does NOT mention
`schema_name`. -/
def update_definition_end_block_num (tbl : List GridPropertyDefinition)
    (name : String) (current_block_num : Int) : List GridPropertyDefinition :=
  tbl.map (fun d =>
    if d.name = name ∧ d.end_block_num = MAX_BLOCK_NUM then
      { d with end_block_num := current_block_num }
    else d)

/-- `insert_grid_schemas` (grid_schemas.rs, lines 30-39): for every schema
in the slice, first run `update_grid_schema_end_block_num` with that
schema's `name` and `start_block_num`; after the whole loop, one bulk
`insert_into(grid_schema::table).values(schemas)`. -/
def insert_grid_schemas (tbl : List GridSchema) (schemas : List GridSchema) :
    List GridSchema :=
  (schemas.foldl (fun t s => update_grid_schema_end_block_num t s.name s.start_block_num)
    tbl) ++ schemas

/-- `insert_grid_property_definitions` (grid_schemas.rs, lines 41-53):
close (by `name` only) every open definition matching each new
definition's name, then bulk-insert the slice. -/
def insert_grid_property_definitions (tbl : List GridPropertyDefinition)
    (definitions : List GridPropertyDefinition) : List GridPropertyDefinition :=
  (definitions.foldl
    (fun t d => update_definition_end_block_num t d.name d.start_block_num) tbl)
    ++ definitions

/-- `list_grid_schemas` (grid_schemas.rs, lines 87-92): all rows whose
`end_block_num` is the open sentinel, no join, no `order_by`. -/
def list_grid_schemas (tbl : List GridSchema) : List GridSchema :=
  tbl.filter (fun r => r.end_block_num = MAX_BLOCK_NUM)

/-- `list_grid_property_definitions` (grid_schemas.rs, lines 94-101). -/
def list_grid_property_definitions (tbl : List GridPropertyDefinition) :
    List GridPropertyDefinition :=
  tbl.filter (fun d => d.end_block_num = MAX_BLOCK_NUM)

/-- The `LEFT JOIN grid_property_definition ON schema_name = grid_schema.name
AND grid_property_definition.end_block_num = MAX_BLOCK_NUM` used by both
queries in `schemas.rs`, with `SELECT grid_schema.all_columns`: a schema
row with k ≥ 1 matching open definitions produces k copies of itself, one
per joined row; a schema row with no matching open definition produces
itself once (left join). -/
def leftJoinOpenDefs (pd : List GridPropertyDefinition) (s : GridSchema) :
    List GridSchema :=
  match pd.filter (fun d => d.schema_name = s.name ∧ d.end_block_num = MAX_BLOCK_NUM) with
  | [] => [s]
  | ds => ds.map (fun _ => s)

/-- `list_grid_schemas` (schemas.rs, lines 24-34): filter the open schema
rows, left-join their open property definitions, select the schema
columns.  No `order_by` appears in the query, so the row order is the
storage order. -/
def list_grid_schemas_api (db : DbState) : List GridSchema :=
  (db.grid_schema.filter (fun s => s.end_block_num = MAX_BLOCK_NUM)).flatMap
    (leftJoinOpenDefs db.grid_property_definition)

/-- Diesel's `result::Error`, as far as the code under `src/` distinguishes
its constructors: `NotFound` (matched explicitly by `fetch_grid_schema`)
versus every other storage error. -/
inductive DieselError where
  | NotFound : DieselError
  | DatabaseError : String → DieselError
  deriving DecidableEq, Repr

/-- The tail of `fetch_grid_schema` (schemas.rs, lines 49-51):
`.first(conn).map(Some).or_else(|err| if err == NotFound { Ok(None) } else { Err(err) })`
applied to the raw outcome of the `.first` query. -/
def fetch_map_result (res : Except DieselError GridSchema) :
    Except DieselError (Option GridSchema) :=
  match res.map some with
  | Except.ok v => Except.ok v
  | Except.error e => if e = DieselError.NotFound then Except.ok none else Except.error e

/-- The `.first` query of `fetch_grid_schema` (schemas.rs, lines 36-49):
filter rows by `name` and the open sentinel, left-join open property
definitions, take the first row; `first` fails with `NotFound` on an empty
result set. -/
def fetch_grid_schema_query (db : DbState) (name : String) :
    Except DieselError GridSchema :=
  match (db.grid_schema.filter
      (fun s => s.name = name ∧ s.end_block_num = MAX_BLOCK_NUM)).flatMap
      (leftJoinOpenDefs db.grid_property_definition) with
  | [] => Except.error DieselError.NotFound
  | r :: _ => Except.ok r

/-- `fetch_grid_schema` (schemas.rs, lines 36-52): the `.first` query with
the `map(Some).or_else(...)` post-processing.  It reads the tables and
returns a result; it issues no update or insert statement. -/
def fetch_grid_schema (db : DbState) (name : String) :
    Except DieselError (Option GridSchema) :=
  fetch_map_result (fetch_grid_schema_query db name)

/-- `RestApiResponseError`, as far as the fetch handler distinguishes it:
the `NotFoundError` it constructs itself, versus errors converted from the
database layer by the `?` operator. -/
inductive RestApiResponseError where
  | NotFoundError : String → RestApiResponseError
  | DatabaseError : String → RestApiResponseError
  deriving DecidableEq, Repr

/-- The REST representation built by `GridSchemaSlice::from_schema`
(rest_api/routes/schemas.rs): the schema's `name`, `description` and
`owner`. -/
structure GridSchemaSlice where
  name : String
  description : String
  owner : String
  deriving DecidableEq, Repr

/-- `GridSchemaSlice::from_schema` as the fetch handler calls it. -/
def GridSchemaSlice.from_schema (s : GridSchema) : GridSchemaSlice :=
  { name := s.name, description := s.description, owner := s.owner }

/-- The conversion the handler's `?` operator applies to a database error
(the `From<diesel::result::Error>` impl lives outside `src/`; the handler
only requires that it produce some non-`NotFoundError` response error, and
the embedding keeps the error's identity). -/
def DieselError.toRest : DieselError → RestApiResponseError
  | DieselError.NotFound => RestApiResponseError.DatabaseError "NotFound"
  | DieselError.DatabaseError m => RestApiResponseError.DatabaseError m

/-- `Handler<FetchGridSchema>::handle` (rest_api/routes/schemas.rs, lines
110-124): propagate database errors via `?`; on `Some(schema)` answer with
the slice; on `None` answer with
`NotFoundError("Could not find schema with name: {name}")`. -/
def handle_fetch_grid_schema (db : DbState) (name : String) :
    Except RestApiResponseError GridSchemaSlice :=
  match fetch_grid_schema db name with
  | Except.error e => Except.error e.toRest
  | Except.ok (some schema) => Except.ok (GridSchemaSlice.from_schema schema)
  | Except.ok none =>
      Except.error (RestApiResponseError.NotFoundError
        ("Could not find schema with name: " ++ name))

/-- Number of open rows (end_block_num = sentinel) carrying `name`. -/
def openCount (tbl : List GridSchema) (name : String) : Nat :=
  (tbl.filter (fun r => r.name = name ∧ r.end_block_num = MAX_BLOCK_NUM)).length

/-- The rows of the table carrying `name`, in row order. -/
def rowsFor (tbl : List GridSchema) (name : String) : List GridSchema :=
  tbl.filter (fun r => r.name = name)

/-! ## Fault-injection semantics

The helpers issue their SQL statements one after another on the supplied
connection and propagate the first failure with `?`.  No function under
`src/` opens a transaction, so each successful statement's effect is
committed when it executes and survives a later statement's failure.  The
run below numbers the statements of `insert_grid_schemas` (statement `i`,
for `i < schemas.length`, is the `i`-th close update; statement
`schemas.length` is the bulk insert) and injects a connection-level fault
at the statement index `failAt`, if any; it returns the `QueryResult`
together with the table state actually left behind. -/

/-- The close-update loop of `insert_grid_schemas`, statement by
statement, stopping at the first injected fault. -/
def runCloseLoop (failAt : Option Nat) : Nat → List GridSchema → List GridSchema →
    Except DieselError Unit × Nat × List GridSchema
  | idx, tbl, [] => (Except.ok (), idx, tbl)
  | idx, tbl, s :: rest =>
      if failAt = some idx then
        (Except.error (DieselError.DatabaseError "connection fault"), idx, tbl)
      else
        runCloseLoop failAt (idx + 1)
          (update_grid_schema_end_block_num tbl s.name s.start_block_num) rest

/-- `insert_grid_schemas` executed on a connection with a fault injected
at statement index `failAt`: the close updates run first, then the bulk
insert; an error aborts the rest of the function but the effects of the
statements already executed remain committed. -/
def insert_grid_schemas_run (failAt : Option Nat) (tbl : List GridSchema)
    (schemas : List GridSchema) : Except DieselError Unit × List GridSchema :=
  match runCloseLoop failAt 0 tbl schemas with
  | (Except.error e, _, t) => (Except.error e, t)
  | (Except.ok _, idx, t) =>
      if failAt = some idx then
        (Except.error (DieselError.DatabaseError "connection fault"), t)
      else (Except.ok (), t ++ schemas)

/-- The `QueryResult<()>` the source's close returns:
`.execute(conn).map(|_| ())` discards the affected-row count, so absent
connection-level faults the statement succeeds whatever it matched. -/
def update_grid_schema_end_block_num_result (tbl : List GridSchema)
    (name : String) (current_block_num : Int) :
    Except DieselError Unit × List GridSchema :=
  (Except.ok (), update_grid_schema_end_block_num tbl name current_block_num)

/-! ## Spec-side vocabulary

`isChain` states invariant I2 of the spec for the version rows of one
name, in row order: every record but the last is closed exactly where the
next one starts (`end_block = next.start_block`, with
`start_block < end_block`), and the last record is open
(`end_block = MAX_BLOCK_NUM`) with a genuine start block
(`start_block < MAX_BLOCK_NUM`).  Such a list of `[start_block,
end_block)` intervals is non-overlapping and contiguous from the first
version's start block onward. -/
def isChain : List GridSchema → Bool
  | [] => true
  | [r] => decide (r.start_block_num < MAX_BLOCK_NUM) &&
      decide (r.end_block_num = MAX_BLOCK_NUM)
  | r :: r' :: rest => decide (r.start_block_num < r.end_block_num) &&
      decide (r.end_block_num = r'.start_block_num) && isChain (r' :: rest)

/-! ## Helper lemmas -/

lemma filter_map_comm (f : GridSchema → GridSchema) (p : GridSchema → Bool)
    (l : List GridSchema) (hf : ∀ r, p (f r) = p r) :
    (l.map f).filter p = (l.filter p).map f := by
  induction l with
  | nil => rfl
  | cons a t ih =>
      by_cases h : p a = true
      · simp [List.filter_cons, hf a, h, ih]
      · simp [List.filter_cons, hf a, h, ih]

lemma update_closes_all (tbl : List GridSchema) (n : String) (b : Int)
    (hb : b ≠ MAX_BLOCK_NUM) :
    (update_grid_schema_end_block_num tbl n b).filter
      (fun r => r.name = n ∧ r.end_block_num = MAX_BLOCK_NUM) = [] := by
  rw [List.filter_eq_nil_iff]
  intro r hr
  rw [update_grid_schema_end_block_num, List.mem_map] at hr
  obtain ⟨r0, _, rfl⟩ := hr
  by_cases h : r0.name = n ∧ r0.end_block_num = MAX_BLOCK_NUM
  · simp [h, hb]
  · simp only [if_neg h]
    simpa using h

lemma openCount_update (tbl : List GridSchema) (n : String) (b : Int)
    (hb : b ≠ MAX_BLOCK_NUM) :
    openCount (update_grid_schema_end_block_num tbl n b) n = 0 := by
  rw [openCount, update_closes_all tbl n b hb, List.length_nil]

lemma insert_single_open_rows (tbl : List GridSchema) (s : GridSchema) (n : String)
    (hn : s.name = n) (he : s.end_block_num = MAX_BLOCK_NUM)
    (hsb : s.start_block_num ≠ MAX_BLOCK_NUM) :
    (insert_grid_schemas tbl [s]).filter
      (fun r => r.name = n ∧ r.end_block_num = MAX_BLOCK_NUM) = [s] := by
  subst hn
  rw [insert_grid_schemas, List.foldl_cons, List.foldl_nil, List.filter_append]
  rw [update_closes_all tbl s.name s.start_block_num hsb]
  simp [he]

lemma openCount_insert_single (tbl : List GridSchema) (s : GridSchema) (n : String)
    (hn : s.name = n) (he : s.end_block_num = MAX_BLOCK_NUM)
    (hsb : s.start_block_num ≠ MAX_BLOCK_NUM) :
    openCount (insert_grid_schemas tbl [s]) n = 1 := by
  rw [openCount, insert_single_open_rows tbl s n hn he hsb, List.length_singleton]

lemma openCount_foldl_le_one (n : String) (calls : List GridSchema)
    (tbl : List GridSchema) (h0 : openCount tbl n ≤ 1)
    (hname : ∀ s ∈ calls, s.name = n)
    (hopen : ∀ s ∈ calls, s.end_block_num = MAX_BLOCK_NUM)
    (hmax : ∀ s ∈ calls, s.start_block_num ≠ MAX_BLOCK_NUM) :
    openCount (calls.foldl (fun t s => insert_grid_schemas t [s]) tbl) n ≤ 1 := by
  induction calls generalizing tbl with
  | nil => exact h0
  | cons c cs ih =>
      rw [List.foldl_cons]
      refine ih (insert_grid_schemas tbl [c]) ?_ ?_ ?_ ?_
      · rw [openCount_insert_single tbl c n (hname c (by simp))
          (hopen c (by simp)) (hmax c (by simp))]
      · exact fun s hs => hname s (List.mem_cons_of_mem c hs)
      · exact fun s hs => hopen s (List.mem_cons_of_mem c hs)
      · exact fun s hs => hmax s (List.mem_cons_of_mem c hs)

lemma openCount_of_rowsFor_nil (tbl : List GridSchema) (n : String)
    (h : rowsFor tbl n = []) : openCount tbl n = 0 := by
  rw [rowsFor, List.filter_eq_nil_iff] at h
  rw [openCount, List.length_eq_zero, List.filter_eq_nil_iff]
  intro r hr
  have := h r hr
  simp only [decide_eq_true_eq] at this ⊢
  exact fun hc => this hc.1

lemma runCloseLoop_no_fault (m : Nat) (rest : List GridSchema) :
    ∀ (idx : Nat) (tbl : List GridSchema), idx + rest.length ≤ m →
    runCloseLoop (some m) idx tbl rest
      = (Except.ok (), idx + rest.length,
         rest.foldl
           (fun t s => update_grid_schema_end_block_num t s.name s.start_block_num)
           tbl) := by
  induction rest with
  | nil => intro idx tbl _; simp [runCloseLoop]
  | cons c cs ih =>
      intro idx tbl h
      rw [List.length_cons] at h
      have hne : ¬ (some m = some idx) := by
        intro hc
        rw [Option.some_inj] at hc
        omega
      rw [runCloseLoop, if_neg hne, ih (idx + 1) _ (by omega)]
      refine congrArg _ ?_
      refine congrArg (fun k => (k, _)) ?_
      rw [List.length_cons]
      omega

lemma update_id_of_no_open (tbl : List GridSchema) (n : String) (b : Int)
    (hno : ∀ r ∈ tbl, ¬(r.name = n ∧ r.end_block_num = MAX_BLOCK_NUM)) :
    update_grid_schema_end_block_num tbl n b = tbl := by
  rw [update_grid_schema_end_block_num]
  refine (List.map_congr_left ?_).trans (List.map_id _)
  intro r hr
  rw [if_neg (hno r hr)]
  rfl

lemma length_insert (tbl schemas : List GridSchema) :
    (insert_grid_schemas tbl schemas).length = tbl.length + schemas.length := by
  rw [insert_grid_schemas, List.length_append]
  refine congrArg (fun k => k + schemas.length) ?_
  induction schemas generalizing tbl with
  | nil => rfl
  | cons c cs ih =>
      rw [List.foldl_cons, ih]
      rw [update_grid_schema_end_block_num, List.length_map]

lemma rowsFor_update_other (tbl : List GridSchema) (n m : String) (b : Int)
    (hm : m ≠ n) :
    rowsFor (update_grid_schema_end_block_num tbl n b) m = rowsFor tbl m := by
  rw [rowsFor, rowsFor, update_grid_schema_end_block_num]
  rw [filter_map_comm _ _ tbl ?_]
  · refine (List.map_congr_left ?_).trans (List.map_id _)
    intro r hr
    rw [List.mem_filter, decide_eq_true_eq] at hr
    have hc : ¬(r.name = n ∧ r.end_block_num = MAX_BLOCK_NUM) := fun hc =>
      hm (hr.2 ▸ hc.1)
    rw [if_neg hc]
    rfl
  · intro r
    by_cases h : r.name = n ∧ r.end_block_num = MAX_BLOCK_NUM
    · simp [h]
    · simp [h]

lemma isChain_tail (a : GridSchema) (l : List GridSchema)
    (h : isChain (a :: l) = true) : isChain l = true := by
  cases l with
  | nil => rfl
  | cons b t =>
      simp only [isChain, Bool.and_eq_true] at h
      exact h.2

lemma chain_starts_lt (l : List GridSchema) (h : isChain l = true) :
    ∀ r ∈ l, r.start_block_num < MAX_BLOCK_NUM := by
  induction l with
  | nil => intro r hr; simp at hr
  | cons a t ih =>
      intro r hr
      rcases List.mem_cons.mp hr with rfl | hr'
      · cases t with
        | nil =>
            simp only [isChain, Bool.and_eq_true, decide_eq_true_eq] at h
            exact h.1
        | cons b t' =>
            simp only [isChain, Bool.and_eq_true, decide_eq_true_eq] at h
            have hb : b.start_block_num < MAX_BLOCK_NUM :=
              ih h.2 b (List.mem_cons_self b t')
            omega
      · exact ih (isChain_tail a t h) r hr'

lemma chain_last_open (rs : List GridSchema) (ropen : GridSchema)
    (h : isChain (rs ++ [ropen]) = true) :
    ropen.end_block_num = MAX_BLOCK_NUM := by
  induction rs with
  | nil =>
      simp only [List.nil_append, isChain, Bool.and_eq_true,
        decide_eq_true_eq] at h
      exact h.2
  | cons a t ih => exact ih (isChain_tail a (t ++ [ropen]) h)

lemma chain_middle_closed (rs : List GridSchema) (ropen : GridSchema)
    (h : isChain (rs ++ [ropen]) = true) :
    ∀ r ∈ rs, r.end_block_num ≠ MAX_BLOCK_NUM := by
  induction rs with
  | nil => intro r hr; simp at hr
  | cons a t ih =>
      intro r hr
      rw [List.cons_append] at h
      rcases List.mem_cons.mp hr with rfl | hr'
      · cases hteq : t ++ [ropen] with
        | nil => simp at hteq
        | cons b t' =>
            rw [hteq] at h
            simp only [isChain, Bool.and_eq_true, decide_eq_true_eq] at h
            have hb : b.start_block_num < MAX_BLOCK_NUM :=
              chain_starts_lt (b :: t') h.2 b (List.mem_cons_self b t')
            rw [h.1.2]
            omega
      · exact ih (isChain_tail a (t ++ [ropen]) h) r hr'

lemma isChain_append_replace (rs : List GridSchema) (ropen x y : GridSchema)
    (h : isChain (rs ++ [ropen]) = true)
    (hxs : x.start_block_num = ropen.start_block_num)
    (hxe : x.start_block_num < x.end_block_num)
    (hxy : x.end_block_num = y.start_block_num)
    (hy : y.start_block_num < MAX_BLOCK_NUM)
    (hye : y.end_block_num = MAX_BLOCK_NUM) :
    isChain (rs ++ [x, y]) = true := by
  induction rs with
  | nil =>
      simp only [List.nil_append, isChain, Bool.and_eq_true, decide_eq_true_eq]
      exact ⟨⟨hxe, hxy⟩, hy, hye⟩
  | cons a t ih =>
      rw [List.cons_append] at h ⊢
      cases t with
      | nil =>
          simp only [List.nil_append, isChain, Bool.and_eq_true,
            decide_eq_true_eq] at h ⊢
          exact ⟨⟨h.1.1, h.1.2.trans hxs.symm⟩, ⟨hxe, hxy⟩, hy, hye⟩
      | cons b t' =>
          rw [List.cons_append] at h ⊢
          simp only [isChain, Bool.and_eq_true] at h ⊢
          exact ⟨h.1, ih h.2⟩

/-- Sample rows for the concrete evaluations below: three versions of a
schema named "widget" and one open schema named "gadget". -/
def widgetV1 : GridSchema := ⟨"widget", "first", "alpha", 1, MAX_BLOCK_NUM⟩

def widgetV5 : GridSchema := ⟨"widget", "second", "alpha", 5, MAX_BLOCK_NUM⟩

def widgetV7 : GridSchema := ⟨"widget", "third", "alpha", 7, MAX_BLOCK_NUM⟩

def gadgetV3 : GridSchema := ⟨"gadget", "other", "beta", 3, MAX_BLOCK_NUM⟩

/-- Sample property definitions: a property named "size" open under
schema "widget", the same property name open under schema "gadget", and a
new "size" version for "widget" starting at block 5. -/
def sizeDefWidget : GridPropertyDefinition :=
  ⟨"size", "widget", "NUMBER", 1, MAX_BLOCK_NUM⟩

def sizeDefGadget : GridPropertyDefinition :=
  ⟨"size", "gadget", "NUMBER", 1, MAX_BLOCK_NUM⟩

def sizeDefWidgetV5 : GridPropertyDefinition :=
  ⟨"size", "widget", "NUMBER", 5, MAX_BLOCK_NUM⟩

lemma leftJoinOpenDefs_head (pd : List GridPropertyDefinition) (s : GridSchema) :
    ∃ l, leftJoinOpenDefs pd s = s :: l := by
  rw [leftJoinOpenDefs]
  cases pd.filter
      (fun d => d.schema_name = s.name ∧ d.end_block_num = MAX_BLOCK_NUM) with
  | nil => exact ⟨[], rfl⟩
  | cons d ds => exact ⟨ds.map (fun _ => s), rfl⟩

lemma leftJoinOpenDefs_mem (pd : List GridPropertyDefinition) (s : GridSchema) :
    ∀ x ∈ leftJoinOpenDefs pd s, x = s := by
  intro x hx
  rw [leftJoinOpenDefs] at hx
  rcases hcase : pd.filter
      (fun d => d.schema_name = s.name ∧ d.end_block_num = MAX_BLOCK_NUM) with
    _ | ⟨d, ds⟩
  · rw [hcase] at hx
    exact List.mem_singleton.mp hx
  · rw [hcase] at hx
    obtain ⟨_, _, rfl⟩ := List.mem_map.mp hx
    rfl

lemma leftJoinOpenDefs_no_open (pd : List GridPropertyDefinition)
    (s : GridSchema)
    (h : ∀ d ∈ pd,
      ¬(d.schema_name = s.name ∧ d.end_block_num = MAX_BLOCK_NUM)) :
    leftJoinOpenDefs pd s = [s] := by
  rw [leftJoinOpenDefs]
  rw [List.filter_eq_nil_iff.mpr (fun d hd => by
    rw [decide_eq_true_eq]
    exact h d hd)]

/-! ## Claim theorems -/

/-- C1: for every sequence of `insert_grid_schemas` calls for a single
schema name, applied in strictly increasing `start_block_num` order
starting from a store with no record of that name, after each call (i.e.
after every prefix of the sequence) at most one record with that name has
`end_block_num = MAX_BLOCK_NUM`.  Each call inserts one `NewGridSchema`
carrying the open sentinel as its `end_block_num` (as the daemon's callers
construct them) and a real start block (below the sentinel). -/
theorem c1_at_most_one_open (n : String) (tbl calls : List GridSchema) (k : Nat)
    (h0 : rowsFor tbl n = [])
    (hname : ∀ s ∈ calls, s.name = n)
    (hopen : ∀ s ∈ calls, s.end_block_num = MAX_BLOCK_NUM)
    (hmax : ∀ s ∈ calls, s.start_block_num ≠ MAX_BLOCK_NUM)
    (hinc : List.Chain' (fun a b => a.start_block_num < b.start_block_num) calls) :
    openCount ((calls.take k).foldl (fun t s => insert_grid_schemas t [s]) tbl) n
      ≤ 1 := by
  refine openCount_foldl_le_one n (calls.take k) tbl ?_ ?_ ?_ ?_
  · rw [openCount_of_rowsFor_nil tbl n h0]
    omega
  · exact fun s hs => hname s (List.take_subset k calls hs)
  · exact fun s hs => hopen s (List.take_subset k calls hs)
  · exact fun s hs => hmax s (List.take_subset k calls hs)

/-- Witness for C1: two "widget" versions at blocks 5 and 7 applied to a
store holding only the unrelated "gadget" record. -/
theorem c1_witness :
    openCount (([widgetV5, widgetV7].take 2).foldl
      (fun t s => insert_grid_schemas t [s]) [gadgetV3]) "widget" ≤ 1 :=
  c1_at_most_one_open "widget" [gadgetV3] [widgetV5, widgetV7] 2 (by decide)
    (by decide) (by decide) (by decide)
    (List.chain'_cons.mpr ⟨by decide, List.chain'_singleton _⟩)

/-- C2: when the version rows of a name form a contiguous non-overlapping
chain with an open last version, inserting a new version at block
`B = s.start_block_num` via `insert_grid_schemas` sets the previously
open record's `end_block_num` to exactly `B`, and the resulting rows for
that name are again a contiguous non-overlapping chain ending in the new
open version. -/
theorem c2_close_then_open_contiguous (tbl : List GridSchema) (n : String)
    (rs : List GridSchema) (ropen s : GridSchema)
    (hrows : rowsFor tbl n = rs ++ [ropen])
    (hchain : isChain (rs ++ [ropen]) = true)
    (hs : s.name = n)
    (hB : ropen.start_block_num < s.start_block_num)
    (hBmax : s.start_block_num < MAX_BLOCK_NUM)
    (hsend : s.end_block_num = MAX_BLOCK_NUM) :
    rowsFor (insert_grid_schemas tbl [s]) n
      = rs ++ [{ ropen with end_block_num := s.start_block_num }, s]
    ∧ isChain (rs ++ [{ ropen with end_block_num := s.start_block_num }, s])
        = true := by
  subst hs
  have hropen_end : ropen.end_block_num = MAX_BLOCK_NUM :=
    chain_last_open rs ropen hchain
  have hropen_name : ropen.name = s.name := by
    have hmem : ropen ∈ rowsFor tbl s.name := by
      rw [hrows]
      exact List.mem_append_right rs (List.mem_singleton_self ropen)
    rw [rowsFor, List.mem_filter, decide_eq_true_eq] at hmem
    exact hmem.2
  constructor
  · rw [insert_grid_schemas, List.foldl_cons, List.foldl_nil, rowsFor,
      List.filter_append]
    have hsingle :
        List.filter (fun r => decide (r.name = s.name)) [s] = [s] := by
      simp
    rw [hsingle, update_grid_schema_end_block_num,
      filter_map_comm _ _ tbl (fun r => by
        by_cases h : r.name = s.name ∧ r.end_block_num = MAX_BLOCK_NUM
        · simp [h]
        · simp [h])]
    rw [← rowsFor, hrows, List.map_append, List.map_singleton,
      if_pos ⟨hropen_name, hropen_end⟩]
    rw [(List.map_congr_left fun r hr => by
      rw [if_neg fun hc => chain_middle_closed rs ropen hchain r hr hc.2]
      rfl).trans (List.map_id rs)]
    rw [List.append_assoc]
    rfl
  · refine isChain_append_replace rs ropen _ s hchain rfl ?_ rfl hBmax hsend
    exact hB

/-- Witness for C2: the "widget" history `[1, 5) , [5, open)` (plus the
unrelated "gadget" row) receiving the block-7 version. -/
theorem c2_witness :
    rowsFor
        (insert_grid_schemas
          [{ widgetV1 with end_block_num := 5 }, widgetV5, gadgetV3] [widgetV7])
        "widget"
      = [{ widgetV1 with end_block_num := 5 }] ++
          [{ widgetV5 with end_block_num := widgetV7.start_block_num }, widgetV7]
    ∧ isChain ([{ widgetV1 with end_block_num := 5 }] ++
        [{ widgetV5 with end_block_num := widgetV7.start_block_num }, widgetV7])
        = true :=
  c2_close_then_open_contiguous
    [{ widgetV1 with end_block_num := 5 }, widgetV5, gadgetV3] "widget"
    [{ widgetV1 with end_block_num := 5 }] widgetV5 widgetV7 (by decide)
    (by decide) (by decide) (by decide) (by decide) (by decide)

/-- C3 counterexample: applying the same change-set (`widgetV5`) twice in
a row does NOT yield the same store state as applying it once — the
second application succeeds (no `StaleUpdateError` exists anywhere in the
helpers) and changes the store. -/
theorem c3_counterexample :
    (insert_grid_schemas_run none (insert_grid_schemas [] [widgetV5]) [widgetV5]).1
      = Except.ok ()
    ∧ insert_grid_schemas (insert_grid_schemas [] [widgetV5]) [widgetV5]
        ≠ insert_grid_schemas [] [widgetV5] := by
  constructor
  · rfl
  · decide

/-- C3 amended: applying the same `NewGridSchema` twice in a row is not
detected as stale and is not a no-op: the second application succeeds,
closes the record inserted by the first application at that record's own
`start_block_num` (a degenerate `[B, B)` interval), and appends a second
open copy, so the resulting store state differs from a single
application. -/
theorem c3_duplicate_application (tbl : List GridSchema) (s : GridSchema)
    (hno : ∀ r ∈ tbl, ¬(r.name = s.name ∧ r.end_block_num = MAX_BLOCK_NUM))
    (he : s.end_block_num = MAX_BLOCK_NUM) :
    insert_grid_schemas tbl [s] = tbl ++ [s]
    ∧ insert_grid_schemas (insert_grid_schemas tbl [s]) [s]
        = tbl ++ [{ s with end_block_num := s.start_block_num }, s]
    ∧ insert_grid_schemas (insert_grid_schemas tbl [s]) [s]
        ≠ insert_grid_schemas tbl [s] := by
  have h1 : insert_grid_schemas tbl [s] = tbl ++ [s] := by
    rw [insert_grid_schemas, List.foldl_cons, List.foldl_nil,
      update_id_of_no_open tbl s.name s.start_block_num hno]
  refine ⟨h1, ?_, ?_⟩
  · rw [h1, insert_grid_schemas, List.foldl_cons, List.foldl_nil,
      update_grid_schema_end_block_num, List.map_append]
    rw [List.map_singleton, if_pos ⟨rfl, he⟩]
    rw [(List.map_congr_left fun r hr => by
      rw [if_neg (hno r hr)]; rfl).trans (List.map_id tbl)]
    rw [List.append_assoc]
    rfl
  · intro hc
    have hlen := congrArg List.length hc
    rw [length_insert, length_insert] at hlen
    simp at hlen

/-- Witness for C3's amended theorem: the duplicate "widget" change-set at
block 5 on the empty store. -/
theorem c3_witness :
    insert_grid_schemas [] [widgetV5] = [] ++ [widgetV5]
    ∧ insert_grid_schemas (insert_grid_schemas [] [widgetV5]) [widgetV5]
        = [] ++ [{ widgetV5 with end_block_num := widgetV5.start_block_num },
            widgetV5]
    ∧ insert_grid_schemas (insert_grid_schemas [] [widgetV5]) [widgetV5]
        ≠ insert_grid_schemas [] [widgetV5] :=
  c3_duplicate_application [] widgetV5 (by decide) (by decide)

/-- C5 counterexample: `update_grid_schema_end_block_num` (the close
operation) does not fail when no record with the key is open — on the
empty store it returns `Ok` — and does not fail when the supplied
end block is ≤ the open record's start block: closing "widget" (open
since block 5) at block 3 also returns `Ok`, and records the inverted
range `end_block_num = 3 < start_block_num = 5`. -/
theorem c5_counterexample :
    update_grid_schema_end_block_num_result [] "widget" 3
      = (Except.ok (), [])
    ∧ update_grid_schema_end_block_num_result [widgetV5] "widget" 3
        = (Except.ok (), [{ widgetV5 with end_block_num := 3 }]) := by
  constructor
  · rfl
  · refine congrArg (fun t => (Except.ok (), t)) ?_
    decide

/-- C5 amended: the close operation sets `end_block_num` to the supplied
block on every currently open record with the given name, leaves rows of
other names and already-closed rows untouched, and always succeeds: it
raises no `NotFoundError` when nothing is open and no `InvalidRangeError`
when the supplied end block is ≤ the open record's start block (the
source performs no such checks and discards the affected-row count). -/
theorem c5_close_never_fails (tbl : List GridSchema) (n m : String) (b : Int)
    (r : GridSchema) (hb : b ≠ MAX_BLOCK_NUM) (hm : m ≠ n) (hr : r ∈ tbl)
    (hrc : r.end_block_num ≠ MAX_BLOCK_NUM) :
    (update_grid_schema_end_block_num_result tbl n b).1 = Except.ok ()
    ∧ openCount (update_grid_schema_end_block_num tbl n b) n = 0
    ∧ rowsFor (update_grid_schema_end_block_num tbl n b) m = rowsFor tbl m
    ∧ r ∈ update_grid_schema_end_block_num tbl n b := by
  refine ⟨rfl, openCount_update tbl n b hb, rowsFor_update_other tbl n m b hm, ?_⟩
  rw [update_grid_schema_end_block_num, List.mem_map]
  refine ⟨r, hr, ?_⟩
  rw [if_neg fun hc => hrc hc.2]

/-- Witness for C5's amended theorem: closing "widget" at block 9 in a
store holding an open "widget" row, a closed "widget" row and the open
"gadget" row. -/
theorem c5_witness :
    (update_grid_schema_end_block_num_result
      [⟨"widget", "first", "alpha", 1, 5⟩, widgetV5, gadgetV3] "widget" 9).1
        = Except.ok ()
    ∧ openCount (update_grid_schema_end_block_num
        [⟨"widget", "first", "alpha", 1, 5⟩, widgetV5, gadgetV3] "widget" 9)
        "widget" = 0
    ∧ rowsFor (update_grid_schema_end_block_num
        [⟨"widget", "first", "alpha", 1, 5⟩, widgetV5, gadgetV3] "widget" 9)
        "gadget"
      = rowsFor [⟨"widget", "first", "alpha", 1, 5⟩, widgetV5, gadgetV3] "gadget"
    ∧ (⟨"widget", "first", "alpha", 1, 5⟩ : GridSchema)
        ∈ update_grid_schema_end_block_num
          [⟨"widget", "first", "alpha", 1, 5⟩, widgetV5, gadgetV3] "widget" 9 :=
  c5_close_never_fails [⟨"widget", "first", "alpha", 1, 5⟩, widgetV5, gadgetV3]
    "widget" "gadget" 9 ⟨"widget", "first", "alpha", 1, 5⟩ (by decide) (by decide)
    (by decide) (by decide)

/-- C6 counterexample: with one open "widget" record in the store, running
`insert_grid_schemas` for the block-5 version with a connection fault
injected at the bulk insert (statement 1, after the close update at
statement 0) leaves the store with the old version closed at block 5 and
NO new version opened — not the pre-transaction state the claim
requires. -/
theorem c6_counterexample :
    insert_grid_schemas_run (some 1) [widgetV1] [widgetV5]
      = (Except.error (DieselError.DatabaseError "connection fault"),
         [{ widgetV1 with end_block_num := 5 }])
    ∧ openCount [{ widgetV1 with end_block_num := 5 }] "widget" = 0
    ∧ [{ widgetV1 with end_block_num := 5 }] ≠ [widgetV1] := by
  refine ⟨?_, by decide, by decide⟩
  rfl

/-- C6 amended: `insert_grid_schemas` issues its close updates and its
bulk insert as separate statements with no enclosing transaction anywhere
under `src/`: a failure at the bulk insert leaves every close update
already executed committed, so the store keeps the closed versions and
gains no new open version (the pre-call state is not restored). -/
theorem c6_not_atomic (tbl schemas : List GridSchema) :
    insert_grid_schemas_run (some schemas.length) tbl schemas
      = (Except.error (DieselError.DatabaseError "connection fault"),
         schemas.foldl
           (fun t s => update_grid_schema_end_block_num t s.name s.start_block_num)
           tbl) := by
  rw [insert_grid_schemas_run,
    runCloseLoop_no_fault schemas.length schemas 0 tbl (by omega)]
  simp

/-- C10: when the slice passed to a single `insert_grid_schemas` call
contains two entries with the same name (both carrying the open sentinel,
as the callers construct them), both rows are inserted open — every close
update runs before the one bulk insert — leaving exactly two open records
for that name after the call. -/
theorem c10_double_insert_two_open (tbl : List GridSchema) (n : String)
    (s1 s2 : GridSchema) (h1 : s1.name = n) (h2 : s2.name = n)
    (he1 : s1.end_block_num = MAX_BLOCK_NUM)
    (he2 : s2.end_block_num = MAX_BLOCK_NUM)
    (hb1 : s1.start_block_num ≠ MAX_BLOCK_NUM)
    (hb2 : s2.start_block_num ≠ MAX_BLOCK_NUM) :
    (insert_grid_schemas tbl [s1, s2]).filter
      (fun r => r.name = n ∧ r.end_block_num = MAX_BLOCK_NUM) = [s1, s2]
    ∧ openCount (insert_grid_schemas tbl [s1, s2]) n = 2 := by
  subst h2
  have hfil : (insert_grid_schemas tbl [s1, s2]).filter
      (fun r => r.name = s2.name ∧ r.end_block_num = MAX_BLOCK_NUM)
        = [s1, s2] := by
    rw [insert_grid_schemas, List.foldl_cons, List.foldl_cons, List.foldl_nil,
      List.filter_append,
      update_closes_all _ s2.name s2.start_block_num hb2]
    simp [h1, he1, he2]
  exact ⟨hfil, by rw [openCount, hfil]; rfl⟩

/-- Witness for C10: one call inserting the block-5 and block-7 "widget"
versions together, over a store holding the open block-1 version. -/
theorem c10_witness :
    (insert_grid_schemas [widgetV1] [widgetV5, widgetV7]).filter
      (fun r => r.name = "widget" ∧ r.end_block_num = MAX_BLOCK_NUM)
        = [widgetV5, widgetV7]
    ∧ openCount (insert_grid_schemas [widgetV1] [widgetV5, widgetV7]) "widget"
        = 2 :=
  c10_double_insert_two_open [widgetV1] "widget" widgetV5 widgetV7 (by decide)
    (by decide) (by decide) (by decide) (by decide) (by decide)

/-- C4 at its failing input: `update_definition_end_block_num` filters
only on the property `name` and the open sentinel — not on `schema_name`
— so inserting a new "size" version for schema "widget" also closes the
open "size" definition belonging to schema "gadget", although the claim
(and the read-side join on `schema_name`) requires that record to be left
unchanged. -/
theorem c4_failing_input :
    insert_grid_property_definitions [sizeDefWidget, sizeDefGadget]
        [sizeDefWidgetV5]
      = [{ sizeDefWidget with end_block_num := 5 },
         { sizeDefGadget with end_block_num := 5 }, sizeDefWidgetV5]
    ∧ { sizeDefGadget with end_block_num := 5 } ≠ sizeDefGadget := by
  exact ⟨by decide, by decide⟩

/-- C7: `fetch_grid_schema` returns exactly the record whose
`end_block_num` is the open sentinel when one exists for the name,
returns `Ok(None)` when no record with that name is open (never opened or
closed without reopening), the REST handler surfaces that absence as a
`NotFoundError` response, and a storage error other than diesel's
`NotFound` is propagated unchanged by the `or_else` mapping.  The
embedded read is a pure function of the store: it issues no update or
insert, so it cannot mutate the tables. -/
theorem c7_fetch_contract (db db2 : DbState) (n n2 : String) (r : GridSchema)
    (msg : String)
    (h1 : db.grid_schema.filter
      (fun x => x.name = n ∧ x.end_block_num = MAX_BLOCK_NUM) = [r])
    (h2 : db2.grid_schema.filter
      (fun x => x.name = n2 ∧ x.end_block_num = MAX_BLOCK_NUM) = []) :
    fetch_grid_schema db n = Except.ok (some r)
    ∧ fetch_grid_schema db2 n2 = Except.ok none
    ∧ handle_fetch_grid_schema db2 n2
        = Except.error (RestApiResponseError.NotFoundError
            ("Could not find schema with name: " ++ n2))
    ∧ fetch_map_result (Except.error (DieselError.DatabaseError msg))
        = Except.error (DieselError.DatabaseError msg) := by
  have hq1 : fetch_grid_schema_query db n = Except.ok r := by
    rw [fetch_grid_schema_query, h1]
    obtain ⟨l, hl⟩ := leftJoinOpenDefs_head db.grid_property_definition r
    rw [List.flatMap_cons, List.flatMap_nil, List.append_nil, hl]
  have hq2 : fetch_grid_schema_query db2 n2 = Except.error DieselError.NotFound := by
    rw [fetch_grid_schema_query, h2]
    rfl
  have hf2 : fetch_grid_schema db2 n2 = Except.ok none := by
    rw [fetch_grid_schema, hq2]
    rfl
  refine ⟨?_, hf2, ?_, rfl⟩
  · rw [fetch_grid_schema, hq1]
    rfl
  · rw [handle_fetch_grid_schema, hf2]

/-- Witness for C7: a store where "widget" has exactly one open version
(`widgetV5`) next to a closed row, and a second store where "widget" was
closed at block 5 and never reopened. -/
theorem c7_witness :
    fetch_grid_schema ⟨[{ widgetV1 with end_block_num := 5 }, widgetV5], []⟩
        "widget" = Except.ok (some widgetV5)
    ∧ fetch_grid_schema ⟨[{ widgetV1 with end_block_num := 5 }], []⟩ "widget"
        = Except.ok none
    ∧ handle_fetch_grid_schema ⟨[{ widgetV1 with end_block_num := 5 }], []⟩
        "widget"
        = Except.error (RestApiResponseError.NotFoundError
            ("Could not find schema with name: " ++ "widget"))
    ∧ fetch_map_result (Except.error (DieselError.DatabaseError "timeout"))
        = Except.error (DieselError.DatabaseError "timeout") :=
  c7_fetch_contract ⟨[{ widgetV1 with end_block_num := 5 }, widgetV5], []⟩
    ⟨[{ widgetV1 with end_block_num := 5 }], []⟩ "widget" "widget" widgetV5
    "timeout" (by decide) (by decide)

/-- C8 counterexample: the claim fails on both counts.  A schema with two
open property definitions is returned twice by the joined
`list_grid_schemas` of `schemas.rs` (the left join multiplies the schema
row per matching definition), so an open key is not returned exactly
once; and neither query carries an `order_by`, so rows come back in
storage order — here "widget" before "gadget", not ascending by key. -/
theorem c8_counterexample :
    list_grid_schemas_api ⟨[widgetV5], [sizeDefWidget, sizeDefWidgetV5]⟩
      = [widgetV5, widgetV5]
    ∧ list_grid_schemas [widgetV5, gadgetV3] = [widgetV5, gadgetV3]
    ∧ gadgetV3.name < widgetV5.name := by
  refine ⟨by decide, by decide, ?_⟩
  rw [String.lt_iff_toList_lt]
  decide

/-- C8 amended: both listings return exactly the rows whose
`end_block_num` is the open sentinel — the plain `list_grid_schemas` of
`grid_schemas.rs` with the same multiplicity as the table, the joined
variant of `schemas.rs` containing a schema row iff it is open (repeated
once per matching open definition) — but no ordering is imposed (no
`order_by` is issued) and the joined variant can return an open key more
than once. -/
theorem c8_list_open_rows (tbl : List GridSchema) (r : GridSchema)
    (db : DbState) (s : GridSchema) :
    (r ∈ list_grid_schemas tbl ↔ r ∈ tbl ∧ r.end_block_num = MAX_BLOCK_NUM)
    ∧ ((list_grid_schemas tbl).count r
        = if r.end_block_num = MAX_BLOCK_NUM then tbl.count r else 0)
    ∧ (s ∈ list_grid_schemas_api db
        ↔ s ∈ db.grid_schema ∧ s.end_block_num = MAX_BLOCK_NUM) := by
  refine ⟨?_, ?_, ?_⟩
  · rw [list_grid_schemas, List.mem_filter, decide_eq_true_eq]
  · by_cases h : r.end_block_num = MAX_BLOCK_NUM
    · rw [if_pos h, list_grid_schemas, List.count_filter (by simp [h])]
    · rw [if_neg h, List.count_eq_zero]
      intro hc
      rw [list_grid_schemas, List.mem_filter, decide_eq_true_eq] at hc
      exact h hc.2
  · rw [list_grid_schemas_api, List.mem_flatMap]
    constructor
    · rintro ⟨t, ht, hst⟩
      obtain rfl := leftJoinOpenDefs_mem db.grid_property_definition t s hst
      rw [List.mem_filter, decide_eq_true_eq] at ht
      exact ht
    · rintro ⟨hs, hopen⟩
      refine ⟨s, ?_, ?_⟩
      · rw [List.mem_filter, decide_eq_true_eq]
        exact ⟨hs, hopen⟩
      · obtain ⟨l, hl⟩ := leftJoinOpenDefs_head db.grid_property_definition s
        rw [hl]
        exact List.mem_cons_self s l

/-- C9: a schema with an open version and zero open property definitions
is still returned: the join is a left join restricted to open
definitions, so the schema row survives it, appears in the joined
listing, and is returned by `fetch_grid_schema`. -/
theorem c9_left_join_keeps_childless_parent (db : DbState) (s : GridSchema)
    (hs : s ∈ db.grid_schema) (hopen : s.end_block_num = MAX_BLOCK_NUM)
    (hnodefs : ∀ d ∈ db.grid_property_definition,
      ¬(d.schema_name = s.name ∧ d.end_block_num = MAX_BLOCK_NUM))
    (huniq : db.grid_schema.filter
      (fun x => x.name = s.name ∧ x.end_block_num = MAX_BLOCK_NUM) = [s]) :
    s ∈ list_grid_schemas_api db
    ∧ fetch_grid_schema db s.name = Except.ok (some s) := by
  constructor
  · rw [list_grid_schemas_api, List.mem_flatMap]
    refine ⟨s, ?_, ?_⟩
    · rw [List.mem_filter, decide_eq_true_eq]
      exact ⟨hs, hopen⟩
    · rw [leftJoinOpenDefs_no_open db.grid_property_definition s hnodefs]
      exact List.mem_singleton_self s
  · rw [fetch_grid_schema, fetch_grid_schema_query, huniq,
      List.flatMap_cons, List.flatMap_nil, List.append_nil,
      leftJoinOpenDefs_no_open db.grid_property_definition s hnodefs]
    rfl

/-- Witness for C9: the open "widget" schema whose only "size" definition
row is closed (deleted-by-omission at block 5). -/
theorem c9_witness :
    widgetV5 ∈ list_grid_schemas_api
      ⟨[widgetV5], [{ sizeDefWidget with end_block_num := 5 }]⟩
    ∧ fetch_grid_schema
        ⟨[widgetV5], [{ sizeDefWidget with end_block_num := 5 }]⟩
        widgetV5.name
      = Except.ok (some widgetV5) :=
  c9_left_join_keeps_childless_parent
    ⟨[widgetV5], [{ sizeDefWidget with end_block_num := 5 }]⟩ widgetV5
    (by decide) (by decide) (by decide) (by decide)

end Grid
